import Mathlib

/-!
# A shallow embedding of the `libs/pubsub` dispatcher

This development embeds the publish/subscribe dispatcher of
`src/libs/pubsub/pubsub.go` (package `pubsub`) in Lean 4 and settles a list of
claims about it.

Modelling conventions:

* The subscription index is a list of `SubInfo` records; the Go `subIndex`
  maps (`byID`, `byClient`, `byQuery`, `all`) are derived views of that list.
  The file `subindex.go` is not part of the given sources, so the index
  operations are modelled from the spec (section 4.3), each one marked in its
  doc comment.
* The per-subscription queue (`subscription.go`, also not in the sources) is
  modelled from the spec (section 4.2): a FIFO list with a hard `limit`, a
  soft `quota`, and a latched terminal error.
* Go `interface` values that may be `nil` become `Option`; fallible calls
  return `Except Err`; a Go panic (nil-pointer dereference) is modelled as
  `Option.none` on the operation's result.
* The message payload `data interface.Data` is opaque to the dispatcher; it is
  modelled by `Nat`.
* Server-assigned subscription IDs are opaque unique strings in Go; they are
  modelled by `Nat` drawn from a counter.
-/

namespace Pubsub

/-- Mirrors `abci/types.EventAttribute`: a key/value pair of an event. -/
structure EventAttribute where
  key : String
  value : String
deriving DecidableEq

/-- Mirrors `abci/types.Event`: an event type together with its attributes. -/
structure Event where
  type : String
  attributes : List EventAttribute
deriving DecidableEq

/-- The distinguishable `error` values produced by the pubsub package:
the exported sentinel errors of `pubsub.go`, the ad-hoc `errors.New` /
`fmt.Errorf` sites of `pubsub.go` (argument validation, observer and match
failures wraps), `ctx.Err()`, and the capacity errors of the subscription
queue described by the spec. -/
inductive Err where
  | subscriptionNotFound
  | alreadySubscribed
  | serverStopped
  | unsubscribed
  | terminated
  | outOfCapacity
  | queryNil
  | mustSpecifySubscriber
  | notFullyDefined
  | invalidCapacity
  | observerAlreadyRegistered
  | observeFnNil
  | observerFailed (e : String)
  | matchFailed (e : String)
  | ctxCanceled
deriving DecidableEq

/-- Mirrors the `Query` interface of `pubsub.go`: `Matches(events)` returning
a boolean or an error, and `String()`. The predicate itself is opaque to the
dispatcher, so it is embedded as a function. -/
structure Query where
  matchesFn : List Event → Except String Bool
  str : String

/-- Mirrors `Message`: subscription ID, opaque payload, event list.
`subID` is `0` for the copy handed to the observer (the Go code leaves the
field at its zero value there). -/
structure Message where
  subID : Nat
  data : Nat
  events : List Event
deriving DecidableEq

/-- Modelled from the spec: `subscription.go` is not in the sources.
A subscription (spec section 4.2 and section 3): server-assigned unique `id`,
FIFO `queue` of messages, soft `quota` and hard `limit` (with
`0 < quota ≤ limit` after construction), and a latched `terminal` error. -/
structure Subscription where
  id : Nat
  queue : List Message
  quota : Int
  limit : Int
  terminal : Option Err
deriving DecidableEq

/-- Modelled from the spec: `stop(err)` "idempotently latches terminal error
`err`" (spec section 4.2) — the first latched error wins. -/
def Subscription.stop (s : Subscription) (e : Err) : Subscription :=
  match s.terminal with
  | some _ => s
  | none => { s with terminal := some e }

/-- Modelled from the spec: `newSubscription(quota, limit)` constructs the
bounded queue. Spec section 4.2/3: normalization `quota = 0 ⇒ quota = limit`,
and the invariant `0 < quota ≤ limit` must hold afterwards; invalid capacity
arguments are an error (`pubsub.go` line 229: "or if the capacity arguments
are invalid"). -/
def newSubscription (quota limit : Int) (id : Nat) : Except Err Subscription :=
  let q := if quota = 0 then limit else quota
  if 0 < q ∧ q ≤ limit then
    .ok { id := id, queue := [], quota := q, limit := limit, terminal := none }
  else
    .error .invalidCapacity

/-- Modelled from the spec: `publish(msg)` is a non-blocking enqueue
(spec section 4.2). Once terminal, publish rejects with the latched error;
an enqueue that would push the size above the hard `limit` fails with
`ErrOutOfCapacity`; between `quota` and `limit` the message is still
accepted (spec: "The current implementation accepts the message"). -/
def Subscription.publish (s : Subscription) (m : Message) : Except Err Subscription :=
  match s.terminal with
  | some e => .error e
  | none =>
      if (s.queue.length : Int) + 1 > s.limit then .error .outOfCapacity
      else .ok { s with queue := s.queue ++ [m] }

/-- Mirrors `subInfo` of the index: owning client ID, compiled query,
subscription ID, and the subscription itself. -/
structure SubInfo where
  clientID : String
  query : Query
  subID : Nat
  sub : Subscription

/-- The identification key of the uniqueness invariant:
`(clientID, query.String())`. -/
def SubInfo.key (si : SubInfo) : String × String := (si.clientID, si.query.str)

/-- Modelled from the spec (section 4.3): `contains(clientID, queryString)`
reports whether a live entry with that pair is in the index. -/
def containsPair (idx : List SubInfo) (cid qs : String) : Bool :=
  idx.any fun si => si.clientID == cid && si.query.str == qs

/-- Modelled from the spec (section 4.3): `findClientID(id)` returns the set
of subscriptions owned by the given client. -/
def findClientID (idx : List SubInfo) (cid : String) : List SubInfo :=
  idx.filter fun si => si.clientID == cid

/-- Modelled from the spec (section 4.3 with `subInfoSet.withQuery` used at
`pubsub.go` line 282): restrict a set of subscriptions to those registered
with the given query string. -/
def withQuery (s : List SubInfo) (qs : String) : List SubInfo :=
  s.filter fun si => si.query.str == qs

/-- Modelled from the spec (section 4.3): `findQuery(qs)` returns the set of
subscriptions registered with the given query string. -/
def findQuery (idx : List SubInfo) (qs : String) : List SubInfo :=
  idx.filter fun si => si.query.str == qs

/-- Modelled from the spec (section 4.3): `removeAll(set)` removes each entry
of the set from every relation of the index. Entries are identified by their
unique subscription ID. -/
def removeAll (idx evict : List SubInfo) : List SubInfo :=
  idx.filter fun si => !(evict.any fun e => e.subID == si.subID)

/-- Mirrors `item`: the records carried by the publish channel. -/
structure Item where
  data : Nat
  events : List Event
deriving DecidableEq

/-- Mirrors `SubscribeArgs` (field names lowercased for Lean). -/
structure SubscribeArgs where
  clientID : String
  query : Option Query
  limit : Int
  quota : Int

/-- Mirrors `UnsubscribeArgs` (field names lowercased for Lean). -/
structure UnsubscribeArgs where
  subscriber : String
  id : String
  query : Option Query

/-- Mirrors `UnsubscribeArgs.Validate` (`pubsub.go` lines 91-100): the
subscriber must be non-empty, and at least one of the subscription ID or the
query must be given. Returns the error, or `none` when valid. -/
def UnsubscribeArgs.Validate (a : UnsubscribeArgs) : Option Err :=
  if a.subscriber = "" then some .mustSpecifySubscriber
  else if a.id = "" ∧ a.query.isNone then some .notFullyDefined
  else none

/-- The observer callback stored in `Server.subs.observe`. -/
def ObserveFn := Message → Except String Unit

/-- The dispatcher state relevant to the claims: the subscription index
(`none` is the stopped sentinel that the sender installs at shutdown,
mirroring `s.subs.index = nil`), the registered observer, and the counter
from which fresh subscription IDs are drawn. -/
structure ServerState where
  index : Option (List SubInfo)
  observe : Option ObserveFn
  nextSubID : Nat

/-- Mirrors `NewServer`: an empty index, no observer. -/
def ServerState.initial : ServerState :=
  { index := some [], observe := none, nextSubID := 1 }

/-- Mirrors `SubscribeWithArgs` (`pubsub.go` lines 231-258): nil query is an
error; a stopped server (nil index) is `ErrServerStopped`; an existing live
`(clientID, query.String())` pair is `ErrAlreadySubscribed`; `Limit = 0` is
normalized to `1`; then `newSubscription` builds the subscription, which is
added to the index. Returns the subscription and the new state. -/
def SubscribeWithArgs (st : ServerState) (args : SubscribeArgs) :
    Except Err (Subscription × ServerState) :=
  match args.query with
  | none => .error .queryNil
  | some q =>
    match st.index with
    | none => .error .serverStopped
    | some idx =>
      if containsPair idx args.clientID q.str then .error .alreadySubscribed
      else
        let lim := if args.limit = 0 then 1 else args.limit
        match newSubscription args.quota lim st.nextSubID with
        | .error e => .error e
        | .ok sub =>
            .ok (sub,
              { st with
                index := some (idx ++ [{ clientID := args.clientID, query := q,
                                         subID := sub.id, sub := sub }])
                nextSubID := st.nextSubID + 1 })

/-- The eviction of `removeSubs` applied to one entry: latch the reason on
the subscription (`si.sub.stop(reason)` at `pubsub.go` line 405). -/
def stopInfo (reason : Err) (si : SubInfo) : SubInfo :=
  { si with sub := si.sub.stop reason }

/-- Mirrors `Unsubscribe` (`pubsub.go` lines 262-293): validate the
arguments; a stopped server is `ErrServerStopped`; the eviction set is the
subscriber's subscriptions, restricted by the query string when a query is
given (the `Subscriber == ""` branch is unreachable after `Validate`); an
empty eviction set is `ErrSubscriptionNotFound`; otherwise `removeSubs`
stops every evicted subscription with `ErrUnsubscribed` and removes it.
Returns the new state together with the stopped subscriptions (which the
clients still hold). -/
def Unsubscribe (st : ServerState) (args : UnsubscribeArgs) :
    Except Err (ServerState × List SubInfo) :=
  match args.Validate with
  | some e => .error e
  | none =>
    match st.index with
    | none => .error .serverStopped
    | some idx =>
      let evict :=
        if args.subscriber ≠ "" then
          match args.query with
          | some q => withQuery (findClientID idx args.subscriber) q.str
          | none => findClientID idx args.subscriber
        else
          match args.query with
          | some q => findQuery idx q.str
          | none => []
      if evict.isEmpty then .error .subscriptionNotFound
      else .ok ({ st with index := some (removeAll idx evict) },
                evict.map (stopInfo .unsubscribed))

/-- Mirrors `UnsubscribeAll` (`pubsub.go` lines 297-307). There is no stopped
check: on a stopped server `s.subs.index.findClientID(clientID)` dereferences
the nil index, a panic, modelled as `none`. -/
def UnsubscribeAllOp (st : ServerState) (clientID : String) :
    Option (Except Err (ServerState × List SubInfo)) :=
  match st.index with
  | none => none
  | some idx =>
    let evict := findClientID idx clientID
    if evict.isEmpty then some (.error .subscriptionNotFound)
    else some (.ok ({ st with index := some (removeAll idx evict) },
                    evict.map (stopInfo .unsubscribed)))

/-- Mirrors `NumClients` (`pubsub.go` lines 310-314):
`len(s.subs.index.byClient)` is the number of distinct client IDs holding a
live subscription. There is no stopped check: on a stopped server the field
access dereferences the nil index, a panic, modelled as `none`. -/
def NumClients (st : ServerState) : Option Nat :=
  match st.index with
  | none => none
  | some idx => some ((idx.map fun si => si.clientID).dedup.length)

/-- Mirrors `Observe` (`pubsub.go` lines 194-226): at most one observer; the
registered callback filters by the given queries (empty list means all
messages) and otherwise returns `nil` without calling `observe`. In Lean the
callback cannot be nil, so the `observe == nil` branch has no counterpart. -/
def ObserveOp (st : ServerState) (f : ObserveFn) (queries : List Query) :
    Except Err ServerState :=
  match st.observe with
  | some _ => .error .observerAlreadyRegistered
  | none =>
      .ok { st with observe := some fun m =>
        let hit := queries.isEmpty
            || queries.any fun q =>
                 match q.matchesFn m.events with
                 | .ok b => b
                 | .error _ => false
        if hit then f m else .ok () }

/-- The message fanned out to subscription `si` for payload `d` and events
`e` (`pubsub.go` lines 454-457). -/
def fanMsg (d : Nat) (e : List Event) (si : SubInfo) : Message :=
  { subID := si.sub.id, data := d, events := e }

/-- The fan-out loop of `send` (`pubsub.go` lines 442-461), processing the
`all` view in order. Returns the updated index contents, the local eviction
set collected so far, and the early-returned error, if any: a query-match
error aborts the loop (`return fmt.Errorf("match failed ...")`), leaving the
erroring entry and the unprocessed tail untouched; a non-match is skipped; a
successful `publish` stores the grown queue; a failed `publish` adds the
entry to the eviction set and moves on. -/
def sendLoop (d : Nat) (e : List Event) : List SubInfo → List SubInfo × List SubInfo × Option Err
  | [] => ([], [], none)
  | si :: rest =>
    match si.query.matchesFn e with
    | .error msg => (si :: rest, [], some (.matchFailed msg))
    | .ok false =>
        let r := sendLoop d e rest
        (si :: r.1, r.2.1, r.2.2)
    | .ok true =>
        match si.sub.publish (fanMsg d e si) with
        | .ok sub2 =>
            let r := sendLoop d e rest
            ({ si with sub := sub2 } :: r.1, r.2.1, r.2.2)
        | .error _ =>
            let r := sendLoop d e rest
            (si :: r.1, si :: r.2.1, r.2.2)

/-- The result of one `send`: the index contents after the deferred eviction,
the evicted subscriptions (each stopped with `ErrTerminated`), and the error
`send` returned, if any. -/
structure SendOutcome where
  index : List SubInfo
  evicted : List SubInfo
  err : Option Err

/-- Mirrors `send` (`pubsub.go` lines 412-464) on the index contents: if an
observer is registered it runs first, and its error vetoes delivery (the
function returns before the loop, the deferred eviction finds an empty set);
otherwise the fan-out loop runs, and the deferred cleanup stops every entry
of the collected eviction set with `ErrTerminated` and removes it from the
index — also on the early match-error return path. -/
def sendIndex (d : Nat) (e : List Event) (obs : Option ObserveFn)
    (idx : List SubInfo) : SendOutcome :=
  match obs with
  | some f =>
    match f { subID := 0, data := d, events := e } with
    | .error msg => { index := idx, evicted := [], err := some (.observerFailed msg) }
    | .ok _ =>
        let r := sendLoop d e idx
        { index := removeAll r.1 r.2.1,
          evicted := r.2.1.map (stopInfo .terminated),
          err := r.2.2 }
  | none =>
      let r := sendLoop d e idx
      { index := removeAll r.1 r.2.1,
        evicted := r.2.1.map (stopInfo .terminated),
        err := r.2.2 }

/-- One iteration of the sender loop of `run` (`pubsub.go` lines 386-390):
deliver one queued item through `send`; the returned error is only logged.
The `none` index case cannot be reached while the sender runs (the sender
itself installs the sentinel only when exiting). -/
def sendState (st : ServerState) (it : Item) : ServerState × List SubInfo × Option Err :=
  match st.index with
  | none => (st, [], none)
  | some idx =>
    let out := sendIndex it.data it.events st.observe idx
    ({ st with index := some out.index }, out.evicted, out.err)

/-- The sender draining a sequence of queued items in order, logging (and
otherwise ignoring) per-item errors, as the loop at `pubsub.go` line 386. -/
def processQueue : ServerState → List Item → ServerState
  | st, [] => st
  | st, it :: rest => processQueue (sendState st it).1 rest

/-- Mirrors the shutdown tail of the sender (`pubsub.go` lines 391-397): when
the publish channel closes, stop every subscription remaining in the index
with `ErrTerminated` and set the index to the stopped sentinel. Returns the
new state and the stopped subscriptions. -/
def shutdownSender (st : ServerState) : ServerState × List SubInfo :=
  match st.index with
  | none => ({ st with index := none }, [])
  | some idx => ({ st with index := none }, idx.map (stopInfo .terminated))

/-- The outcomes of `publish` (`pubsub.go` lines 349-364): the three returns
of the `select`, plus the run-time panic of a send chosen on the closed
queue. -/
inductive PubResult where
  | enqueued
  | stopped
  | ctxErr
  | panicked
deriving DecidableEq

/-- Mirrors the `select` of `publish` (`pubsub.go` lines 353-363) as a step
relation. The flags are the readiness of the cases: `stopped` is "`s.done`
is closed", `canceled` is "`ctx.Done()` is closed", `canSend` is "the send
on `s.queue` can complete successfully" (channel open, with buffer space or
a waiting receiver), and `closed` is "`s.queue` has been closed by the
shutdown monitor (`pubsub.go` line 378)". Per the Go specification a send on
a closed channel proceeds by causing a run-time panic, so the send case is
also selectable when the channel is closed and panics when chosen — the
`pubs` lock only prevents a close during an in-flight send, not a send
entered after the close. Go chooses among the ready cases; each constructor
is guarded by its case's readiness. Only the successful enqueue changes the
queue, appending exactly the given item; the panic unwinds `publish` with
nothing enqueued. -/
inductive PublishStep (stopped canceled canSend closed : Bool) (it : Item) (q : List Item) :
    PubResult → List Item → Prop
  | isStopped : stopped = true →
      PublishStep stopped canceled canSend closed it q .stopped q
  | isCanceled : canceled = true →
      PublishStep stopped canceled canSend closed it q .ctxErr q
  | enqueue : canSend = true →
      PublishStep stopped canceled canSend closed it q .enqueued (q ++ [it])
  | panicked : closed = true →
      PublishStep stopped canceled canSend closed it q .panicked q

/-- Boolean: the `Except` is an error. -/
def isErrE {α : Type} (x : Except Err α) : Bool :=
  match x with
  | .error _ => true
  | .ok _ => false

/-- Boolean: the capacity arguments pass the validation of
`newSubscription` — after the spec's normalization `quota = 0 ⇒ quota =
limit`, the invariant `0 < quota ≤ limit` holds. -/
def capacityOk (quota limit : Int) : Bool :=
  decide (0 < (if quota = 0 then limit else quota) ∧
    (if quota = 0 then limit else quota) ≤ limit)

/-- Boolean: `Unsubscribe` with arguments `a` (valid, so `a.subscriber` is
non-empty) evicts entry `si`: the entry belongs to the subscriber, and, when
a query is supplied, was registered with that query string. -/
def unsubTarget (a : UnsubscribeArgs) (si : SubInfo) : Bool :=
  match a.query with
  | some q => (si.query.str == q.str) && (si.clientID == a.subscriber)
  | none => si.clientID == a.subscriber

/-- Boolean: evaluating `si`'s query on `e` does not error. -/
def matchOk (e : List Event) (si : SubInfo) : Bool :=
  match si.query.matchesFn e with
  | .ok _ => true
  | .error _ => false

/-- Boolean: `si`'s query matches the events `e` (errors count as no match). -/
def isMatch (e : List Event) (si : SubInfo) : Bool :=
  match si.query.matchesFn e with
  | .ok b => b
  | .error _ => false

/-- The effect of one fan-out iteration on one entry when query evaluation
does not error: a matching entry whose `publish` succeeds stores the grown
queue; all other entries are unchanged. -/
def fanStep (d : Nat) (e : List Event) (si : SubInfo) : SubInfo :=
  match si.query.matchesFn e with
  | .ok true =>
    match si.sub.publish (fanMsg d e si) with
    | .ok s2 => { si with sub := s2 }
    | .error _ => si
  | _ => si

/-- Boolean: `si` matches and its `publish` fails, so the fan-out adds it to
the local eviction set. -/
def pubFails (d : Nat) (e : List Event) (si : SubInfo) : Bool :=
  match si.query.matchesFn e with
  | .ok true => isErrE (si.sub.publish (fanMsg d e si))
  | _ => false

/-- The fan-out loop never changes the uniqueness keys of the index. -/
theorem sendLoop_keys (d : Nat) (e : List Event) (l : List SubInfo) :
    ((sendLoop d e l).1).map SubInfo.key = l.map SubInfo.key := by
  induction l with
  | nil => rfl
  | cons si rest ih =>
    cases hm : si.query.matchesFn e with
    | error msg => simp [sendLoop, hm]
    | ok b =>
      cases b with
      | false => simp [sendLoop, hm, ih]
      | true =>
        cases hp : si.sub.publish (fanMsg d e si) with
        | ok s2 => simp [sendLoop, hm, hp, ih, SubInfo.key]
        | error e2 => simp [sendLoop, hm, hp, ih]

/-- Removing entries keeps the key list a sublist of the original. -/
theorem removeAll_keys_sublist (idx evict : List SubInfo) :
    ((removeAll idx evict).map SubInfo.key).Sublist (idx.map SubInfo.key) :=
  List.Sublist.map _ (List.filter_sublist _)

/-- A whole `send` keeps the key list of the index a sublist of the
original. -/
theorem sendIndex_keys (d : Nat) (e : List Event) (obs : Option ObserveFn)
    (idx : List SubInfo) :
    (((sendIndex d e obs idx).index).map SubInfo.key).Sublist
      (idx.map SubInfo.key) := by
  have hcore : ((removeAll (sendLoop d e idx).1 (sendLoop d e idx).2.1).map
      SubInfo.key).Sublist (idx.map SubInfo.key) := by
    have h1 := removeAll_keys_sublist (sendLoop d e idx).1 (sendLoop d e idx).2.1
    rw [sendLoop_keys] at h1
    exact h1
  cases obs with
  | none => exact hcore
  | some f =>
    cases hf : f { subID := 0, data := d, events := e } with
    | error msg => simp [sendIndex, hf]
    | ok u => simpa [sendIndex, hf] using hcore

/-- Helper: on valid arguments and a running server, `Unsubscribe` computes
to the `isEmpty` test over the `unsubTarget` filter. -/
theorem unsubscribe_eval (st : ServerState) (a : UnsubscribeArgs)
    (idx : List SubInfo) (hval : a.Validate = none)
    (hidx : st.index = some idx) :
    Unsubscribe st a =
      (if (idx.filter (unsubTarget a)).isEmpty then
        .error .subscriptionNotFound
      else
        .ok ({ st with
               index := some (removeAll idx (idx.filter (unsubTarget a))) },
             (idx.filter (unsubTarget a)).map (stopInfo .unsubscribed))) := by
  have h1 : a.subscriber ≠ "" := by
    intro hsub
    rw [UnsubscribeArgs.Validate, if_pos hsub] at hval
    cases hval
  rw [Unsubscribe, hval, hidx]
  simp only [if_pos h1]
  cases hq : a.query with
  | none =>
    have hfun : unsubTarget a = fun si => si.clientID == a.subscriber := by
      funext si
      simp only [unsubTarget, hq]
    rw [hfun, findClientID]
  | some q =>
    have hfun : unsubTarget a =
        fun si => (si.query.str == q.str) && (si.clientID == a.subscriber) := by
      funext si
      simp only [unsubTarget, hq]
    rw [hfun]
    simp only [withQuery, findClientID, List.filter_filter]

/-- Inversion of a successful `SubscribeWithArgs`: the query was non-nil,
the server was running, the pair was absent, and the new state's index is
the old one with the new entry appended. -/
theorem subscribe_ok_inv {st : ServerState} {args : SubscribeArgs}
    {sub : Subscription} {st2 : ServerState}
    (h : SubscribeWithArgs st args = .ok (sub, st2)) :
    ∃ q idx, args.query = some q ∧ st.index = some idx ∧
      containsPair idx args.clientID q.str = false ∧
      st2.index = some (idx ++ [{ clientID := args.clientID, query := q,
                                  subID := sub.id, sub := sub }]) := by
  cases hq : args.query with
  | none => rw [SubscribeWithArgs, hq] at h; cases h
  | some q =>
    cases hidx : st.index with
    | none => rw [SubscribeWithArgs, hq, hidx] at h; cases h
    | some idx =>
      rw [SubscribeWithArgs, hq, hidx] at h
      cases hc : containsPair idx args.clientID q.str with
      | true => simp [hc] at h
      | false =>
        simp only [hc, Bool.false_eq_true, if_false] at h
        cases hns : newSubscription args.quota
            (if args.limit = 0 then 1 else args.limit) st.nextSubID with
        | error e2 => rw [hns] at h; cases h
        | ok s2 =>
          rw [hns] at h
          obtain ⟨hsub, hst2⟩ := Prod.mk.injEq .. ▸ Except.ok.inj h
          refine ⟨q, idx, rfl, rfl, hc, ?_⟩
          rw [← hst2, ← hsub]

/-- Inversion of a successful `Unsubscribe`: the server was running and the
new index is the old one with some set removed. -/
theorem unsub_ok_inv {st : ServerState} {a : UnsubscribeArgs}
    {st2 : ServerState} {ev : List SubInfo}
    (h : Unsubscribe st a = .ok (st2, ev)) :
    ∃ idx evict, st.index = some idx ∧
      st2.index = some (removeAll idx evict) := by
  cases hval : a.Validate with
  | some e2 => rw [Unsubscribe, hval] at h; cases h
  | none =>
    cases hidx : st.index with
    | none => rw [Unsubscribe, hval, hidx] at h; cases h
    | some idx =>
      rw [unsubscribe_eval st a idx hval hidx] at h
      cases hfe : (idx.filter (unsubTarget a)).isEmpty with
      | true => rw [hfe] at h; cases h
      | false =>
        rw [hfe] at h
        simp only [Bool.false_eq_true, if_false] at h
        obtain ⟨hst2, _⟩ := Prod.mk.injEq .. ▸ Except.ok.inj h
        exact ⟨idx, idx.filter (unsubTarget a), rfl, by rw [← hst2]⟩

/-- Inversion of a successful `UnsubscribeAll`: the server was running and
the new index is the old one with some set removed. -/
theorem unsubAll_ok_inv {st : ServerState} {cid : String} {st2 : ServerState}
    {ev : List SubInfo}
    (h : UnsubscribeAllOp st cid = some (.ok (st2, ev))) :
    ∃ idx evict, st.index = some idx ∧
      st2.index = some (removeAll idx evict) := by
  cases hidx : st.index with
  | none => rw [UnsubscribeAllOp, hidx] at h; cases h
  | some idx =>
    rw [UnsubscribeAllOp, hidx] at h
    cases hfe : (findClientID idx cid).isEmpty with
    | true => simp only [hfe, if_pos] at h; simp at h
    | false =>
      simp only [hfe, Bool.false_eq_true, if_false] at h
      obtain ⟨hst2, _⟩ := Prod.mk.injEq .. ▸ Except.ok.inj (Option.some.inj h)
      exact ⟨idx, findClientID idx cid, rfl, by rw [← hst2]⟩

/-- Registering an observer does not change the index. -/
theorem observe_ok_inv {st st2 : ServerState} {f : ObserveFn}
    {queries : List Query} (h : ObserveOp st f queries = .ok st2) :
    st2.index = st.index := by
  cases hobs : st.observe with
  | some g => rw [ObserveOp, hobs] at h; cases h
  | none =>
    rw [ObserveOp, hobs] at h
    cases h
    rfl

/-! ### Concrete sample values, used by witnesses and counterexamples -/

/-- A query that matches every message. -/
def allQ : Query := { matchesFn := fun _ => .ok true, str := "allq" }

/-- A query that matches no message. -/
def noneQ : Query := { matchesFn := fun _ => .ok false, str := "noq" }

/-- A query whose evaluation always fails. -/
def badQ : Query := { matchesFn := fun _ => .error "boom", str := "badq" }

/-- An observer that accepts every message. -/
def okObs : ObserveFn := fun _ => .ok ()

/-- An observer that rejects every message. -/
def badObs : ObserveFn := fun _ => .error "veto"

/-- A live subscription with capacity one and an empty queue. -/
def sub1 : Subscription := { id := 1, queue := [], quota := 1, limit := 1, terminal := none }

/-- A match-all subscription entry of client `a`. -/
def info1 : SubInfo := { clientID := "a", query := allQ, subID := 1, sub := sub1 }

/-- An entry of client `b` whose query evaluation fails. -/
def infoBad : SubInfo :=
  { clientID := "b", query := badQ, subID := 2, sub := { sub1 with id := 2 } }

/-- A match-all entry of client `c`, distinct from `info1`. -/
def info3 : SubInfo :=
  { clientID := "c", query := allQ, subID := 3, sub := { sub1 with id := 3 } }

/-- A second entry of client `a`, registered with a different query. -/
def infoA2 : SubInfo :=
  { clientID := "a", query := noneQ, subID := 5, sub := { sub1 with id := 5 } }

/-- A match-all entry of client `d` whose subscription queue is already full,
so a publish to it fails with the capacity error. -/
def infoFull : SubInfo :=
  { clientID := "d", query := allQ, subID := 4,
    sub := { id := 4, queue := [{ subID := 4, data := 0, events := [] }],
             quota := 1, limit := 1, terminal := none } }

/-- A stopped-server state (the sender has installed the nil-index sentinel). -/
def stStopped : ServerState := { index := none, observe := none, nextSubID := 5 }

/-- The uniqueness invariant P1: while the server is running (index not the
stopped sentinel), no two live subscriptions share the same
`(clientID, query.String())` pair. -/
def InvUniq (st : ServerState) : Prop :=
  ∀ idx, st.index = some idx → (idx.map SubInfo.key).Nodup

/-- Reachability of server states: the state of `NewServer`, closed under
every operation that touches the index — `SubscribeWithArgs`, `Unsubscribe`,
`UnsubscribeAll`, `Observe` registration, one sender delivery, and the
shutdown tail of the sender. -/
inductive Reachable : ServerState → Prop
  | init : Reachable ServerState.initial
  | subscribe {st : ServerState} {args : SubscribeArgs} {sub : Subscription}
      {st2 : ServerState} : Reachable st →
      SubscribeWithArgs st args = .ok (sub, st2) → Reachable st2
  | unsub {st : ServerState} {args : UnsubscribeArgs} {st2 : ServerState}
      {ev : List SubInfo} : Reachable st →
      Unsubscribe st args = .ok (st2, ev) → Reachable st2
  | unsubAll {st : ServerState} {cid : String} {st2 : ServerState}
      {ev : List SubInfo} : Reachable st →
      UnsubscribeAllOp st cid = some (.ok (st2, ev)) → Reachable st2
  | observeReg {st st2 : ServerState} {f : ObserveFn} {queries : List Query} :
      Reachable st → ObserveOp st f queries = .ok st2 → Reachable st2
  | sendItem {st : ServerState} {it : Item} {st2 : ServerState}
      {ev : List SubInfo} {err : Option Err} : Reachable st →
      sendState st it = (st2, ev, err) → Reachable st2
  | shutdown {st : ServerState} : Reachable st →
      Reachable (shutdownSender st).1

/-! ### General lemmas -/

/-- `fanStep` never changes the identifying data of an entry. -/
theorem fanStep_subID (d : Nat) (e : List Event) (si : SubInfo) :
    (fanStep d e si).subID = si.subID := by
  unfold fanStep
  cases si.query.matchesFn e with
  | error msg => rfl
  | ok b =>
    cases b with
    | false => rfl
    | true =>
      cases si.sub.publish (fanMsg d e si) with
      | error e2 => rfl
      | ok s2 => rfl

/-- `fanStep` never changes the uniqueness key of an entry. -/
theorem fanStep_key (d : Nat) (e : List Event) (si : SubInfo) :
    (fanStep d e si).key = si.key := by
  unfold fanStep
  cases si.query.matchesFn e with
  | error msg => rfl
  | ok b =>
    cases b with
    | false => rfl
    | true =>
      cases si.sub.publish (fanMsg d e si) with
      | error e2 => rfl
      | ok s2 => rfl

/-- The fan-out loop, on a list whose every query evaluates without error,
applies `fanStep` pointwise, collects exactly the `pubFails` entries, and
returns no error. -/
theorem sendLoop_no_error (d : Nat) (e : List Event) (l : List SubInfo)
    (h : ∀ si ∈ l, matchOk e si = true) :
    sendLoop d e l = (l.map (fanStep d e), l.filter (pubFails d e), none) := by
  induction l with
  | nil => rfl
  | cons si rest ih =>
    have hsi : matchOk e si = true := h si (List.mem_cons_self si rest)
    have hrest := ih fun sj hj => h sj (List.mem_cons_of_mem si hj)
    cases hm : si.query.matchesFn e with
    | error msg => rw [matchOk, hm] at hsi; cases hsi
    | ok b =>
      cases b with
      | false =>
        simp [sendLoop, hm, hrest, List.filter_cons, fanStep, pubFails]
      | true =>
        cases hp : si.sub.publish (fanMsg d e si) with
        | ok s2 =>
          simp [sendLoop, hm, hp, hrest, List.filter_cons, fanStep, pubFails,
            isErrE]
        | error e2 =>
          simp [sendLoop, hm, hp, hrest, List.filter_cons, fanStep, pubFails,
            isErrE]

/-- The fan-out loop aborts at the first query-evaluation error: the prefix
before it is processed normally, the erroring entry and the tail are left
untouched, and the wrapped match error is returned. -/
theorem sendLoop_first_error (d : Nat) (e : List Event) (pre : List SubInfo)
    (si : SubInfo) (post : List SubInfo) (msg : String)
    (hpre : ∀ sj ∈ pre, matchOk e sj = true)
    (herr : si.query.matchesFn e = .error msg) :
    sendLoop d e (pre ++ si :: post) =
      (pre.map (fanStep d e) ++ si :: post, pre.filter (pubFails d e),
       some (.matchFailed msg)) := by
  induction pre with
  | nil => simp only [List.nil_append, sendLoop, herr, List.map_nil,
      List.filter_nil]
  | cons sj rest ih =>
    have hsj : matchOk e sj = true := hpre sj (List.mem_cons_self sj rest)
    have hrest := ih fun sk hk => hpre sk (List.mem_cons_of_mem sj hk)
    cases hm : sj.query.matchesFn e with
    | error m2 => rw [matchOk, hm] at hsj; cases hsj
    | ok b =>
      cases b with
      | false =>
        simp [List.cons_append, sendLoop, hm, hrest, List.filter_cons,
          fanStep, pubFails]
      | true =>
        cases hp : sj.sub.publish (fanMsg d e sj) with
        | ok s2 =>
          simp [List.cons_append, sendLoop, hm, hp, hrest, List.filter_cons,
            fanStep, pubFails, isErrE]
        | error e2 =>
          simp [List.cons_append, sendLoop, hm, hp, hrest, List.filter_cons,
            fanStep, pubFails, isErrE]

/-! ### Claim theorems -/

/-- C1: for every published message, if an observer callback is registered
and it returns an error on that message, then no subscription's `publish` is
invoked for that message — the index, including every subscription queue, is
left exactly as it was and nothing is evicted — `send` returns the wrapped
observer error, and the server continues operating: processing the rest of
the queued items proceeds from the unchanged state. -/
theorem observer_veto (st : ServerState) (f : ObserveFn) (idx : List SubInfo)
    (it : Item) (rest : List Item) (msg : String)
    (hobs : st.observe = some f) (hidx : st.index = some idx)
    (hf : f { subID := 0, data := it.data, events := it.events } = .error msg) :
    (sendIndex it.data it.events st.observe idx).err = some (.observerFailed msg) ∧
    (sendIndex it.data it.events st.observe idx).index = idx ∧
    (sendIndex it.data it.events st.observe idx).evicted = [] ∧
    processQueue st (it :: rest) = processQueue st rest := by
  have hsend : sendIndex it.data it.events st.observe idx =
      { index := idx, evicted := [], err := some (.observerFailed msg) } := by
    rw [hobs]; simp [sendIndex, hf]
  have hst : sendState st it = (st, [], some (.observerFailed msg)) := by
    rw [sendState]
    rw [hidx]
    simp only [hsend]
    have : { st with index := some idx } = st := by
      rw [← hidx]
    rw [this]
  refine ⟨by rw [hsend], by rw [hsend], by rw [hsend], ?_⟩
  rw [processQueue, hst]

/-- Witness for C1 at a concrete input: a rejecting observer, one match-all
subscription, one published item. -/
theorem observer_veto_witness :
    (sendIndex 5 [] (ServerState.mk (some [info1]) (some badObs) 2).observe
      [info1]).err = some (.observerFailed "veto") ∧
    (sendIndex 5 [] (ServerState.mk (some [info1]) (some badObs) 2).observe
      [info1]).index = [info1] ∧
    (sendIndex 5 [] (ServerState.mk (some [info1]) (some badObs) 2).observe
      [info1]).evicted = [] ∧
    processQueue (ServerState.mk (some [info1]) (some badObs) 2) [⟨5, []⟩] =
      processQueue (ServerState.mk (some [info1]) (some badObs) 2) [] :=
  observer_veto (ServerState.mk (some [info1]) (some badObs) 2) badObs [info1]
    ⟨5, []⟩ [] "veto" rfl rfl rfl

/-- C2 counterexample: the claim "the sender ... continues delivery to the
remaining subscriptions" is false on the code. With the index
`[infoBad, info1]`, the first entry's query evaluation errors; `send`
returns the wrapped match error at once (`pubsub.go` line 445), and the
second subscription — whose query matches and whose queue has spare
capacity — receives nothing: both queues are still empty afterwards.
Only "log and do not evict" holds: nothing is evicted. -/
theorem match_error_stops_fanout_cex :
    isMatch [] info1 = true ∧
    (info1.sub.queue.length : Int) < info1.sub.limit ∧
    (sendIndex 7 [] none [infoBad, info1]).err = some (.matchFailed "boom") ∧
    (sendIndex 7 [] none [infoBad, info1]).evicted = [] ∧
    (sendIndex 7 [] none [infoBad, info1]).index.map
      (fun si => si.sub.queue.length) = [0, 0] :=
  ⟨rfl, by decide, rfl, rfl, rfl⟩

/-- C2 (amended): during fan-out, when a subscription's query evaluation
errors (the first such error, after a prefix whose evaluations succeed),
the sender returns the wrapped match error — which the `run` loop logs —
and does not evict that subscription: the eviction set holds only the
publish failures collected from the prefix, and both the erroring entry and
every entry after it stay in the index untouched; delivery to the remaining
subscriptions is aborted, not continued. -/
theorem match_error_aborts_fanout (d : Nat) (e : List Event)
    (pre post : List SubInfo) (si : SubInfo) (msg : String)
    (hpre : ∀ sj ∈ pre, matchOk e sj = true)
    (herr : si.query.matchesFn e = .error msg)
    (hids : ((pre ++ si :: post).map fun x => x.subID).Nodup) :
    (sendIndex d e none (pre ++ si :: post)).err = some (.matchFailed msg) ∧
    (sendIndex d e none (pre ++ si :: post)).evicted =
      (pre.filter (pubFails d e)).map (stopInfo .terminated) ∧
    si ∈ (sendIndex d e none (pre ++ si :: post)).index ∧
    ∀ sj ∈ post, sj ∈ (sendIndex d e none (pre ++ si :: post)).index := by
  have hloop := sendLoop_first_error d e pre si post msg hpre herr
  have hout : sendIndex d e none (pre ++ si :: post) =
      { index := removeAll (pre.map (fanStep d e) ++ si :: post)
          (pre.filter (pubFails d e)),
        evicted := (pre.filter (pubFails d e)).map (stopInfo .terminated),
        err := some (.matchFailed msg) } := by
    simp only [sendIndex, hloop]
  rw [List.map_append] at hids
  have hdisj : (pre.map fun x => x.subID).Disjoint
      ((si :: post).map fun x => x.subID) :=
    (List.nodup_append.mp hids).2.2
  have hkeep : ∀ y ∈ si :: post,
      ((pre.filter (pubFails d e)).any fun ev => ev.subID == y.subID) = false := by
    intro y hy
    rw [List.any_eq_false]
    intro ev hev
    have hevp : ev ∈ pre := List.mem_of_mem_filter hev
    have h1 : ev.subID ∈ pre.map fun x => x.subID := List.mem_map_of_mem _ hevp
    have h2 : y.subID ∈ (si :: post).map fun x => x.subID :=
      List.mem_map_of_mem _ hy
    have hne : ev.subID ≠ y.subID := fun hEq => hdisj h1 (hEq ▸ h2)
    simp [hne]
  have hmem : ∀ y ∈ si :: post,
      y ∈ (sendIndex d e none (pre ++ si :: post)).index := by
    intro y hy
    rw [hout]
    simp only [removeAll]
    refine List.mem_filter.mpr ⟨List.mem_append_right _ hy, ?_⟩
    rw [hkeep y hy]
    rfl
  exact ⟨by rw [hout], by rw [hout], hmem si (List.mem_cons_self _ _),
    fun sj hj => hmem sj (List.mem_cons_of_mem _ hj)⟩

/-- Witness for the amended C2 at a concrete input: a well-behaved entry,
then the erroring entry, then a match-all entry that receives nothing. -/
theorem match_error_aborts_fanout_witness :
    (sendIndex 7 [] none ([info1] ++ infoBad :: [info3])).err =
      some (.matchFailed "boom") ∧
    (sendIndex 7 [] none ([info1] ++ infoBad :: [info3])).evicted =
      ([info1].filter (pubFails 7 [])).map (stopInfo .terminated) ∧
    infoBad ∈ (sendIndex 7 [] none ([info1] ++ infoBad :: [info3])).index ∧
    info3 ∈ (sendIndex 7 [] none ([info1] ++ infoBad :: [info3])).index := by
  have h := match_error_aborts_fanout 7 [] [info1] [info3] infoBad "boom"
    (by decide) rfl (by decide)
  exact ⟨h.1, h.2.1, h.2.2.1, h.2.2.2 info3 (by simp)⟩

/-- C3: for a fan-out in which the observer (if registered) accepts the
message and every query evaluation succeeds: each matching subscription's
`publish` is called with the fan-out message and either stores the grown
queue or puts the entry into the local eviction set (`pubFails`); after the
iteration the collected entries are stopped with `ErrTerminated` and removed
from the index; and `send` returns no error, so the publisher sees none. -/
theorem fanout_evicts_slow (d : Nat) (e : List Event) (obs : Option ObserveFn)
    (idx : List SubInfo)
    (hobs : ∀ f, obs = some f → f { subID := 0, data := d, events := e } = .ok ())
    (hmatch : ∀ si ∈ idx, matchOk e si = true) :
    (sendIndex d e obs idx).err = none ∧
    (sendIndex d e obs idx).index =
      removeAll (idx.map (fanStep d e)) (idx.filter (pubFails d e)) ∧
    (sendIndex d e obs idx).evicted =
      (idx.filter (pubFails d e)).map (stopInfo .terminated) ∧
    (∀ si ∈ idx, isMatch e si = true →
      (∃ s2, si.sub.publish (fanMsg d e si) = .ok s2 ∧
        (fanStep d e si).sub.queue = si.sub.queue ++ [fanMsg d e si]) ∨
      (isErrE (si.sub.publish (fanMsg d e si)) = true ∧ pubFails d e si = true)) ∧
    (∀ si ∈ idx.filter (pubFails d e),
      (stopInfo .terminated si).sub.terminal =
        some (si.sub.terminal.getD .terminated)) := by
  have hloop := sendLoop_no_error d e idx hmatch
  have hout : sendIndex d e obs idx =
      { index := removeAll (idx.map (fanStep d e)) (idx.filter (pubFails d e)),
        evicted := (idx.filter (pubFails d e)).map (stopInfo .terminated),
        err := none } := by
    cases obs with
    | none => simp only [sendIndex, hloop]
    | some f =>
      have hf := hobs f rfl
      simp only [sendIndex, hf, hloop]
  refine ⟨by rw [hout], by rw [hout], by rw [hout], ?_, ?_⟩
  · intro si hsi hm
    cases hq : si.query.matchesFn e with
    | error m2 => rw [isMatch, hq] at hm; cases hm
    | ok b =>
      rw [isMatch, hq] at hm
      subst hm
      cases hp : si.sub.publish (fanMsg d e si) with
      | ok s2 =>
        refine Or.inl ⟨s2, rfl, ?_⟩
        have hstep : fanStep d e si = { si with sub := s2 } := by
          simp only [fanStep, hq, hp]
        rw [hstep]
        have := hp
        rw [Subscription.publish] at this
        cases hterm : si.sub.terminal with
        | some e2 => rw [hterm] at this; cases this
        | none =>
          rw [hterm] at this
          by_cases hcap : (si.sub.queue.length : Int) + 1 > si.sub.limit
          · rw [if_pos hcap] at this; cases this
          · rw [if_neg hcap] at this
            have := Except.ok.inj this
            rw [← this]
      | error e2 =>
        exact Or.inr ⟨rfl, by simp only [pubFails, hq, hp]; rfl⟩
  · intro si hsi
    simp only [stopInfo]
    cases hterm : si.sub.terminal with
    | none => simp [Subscription.stop, hterm]
    | some e2 => simp [Subscription.stop, hterm]

/-- Witness for C3 at a concrete input: one subscription with room (message
delivered) and one with a full queue (collected and evicted with
`ErrTerminated`), no observer. -/
theorem fanout_evicts_slow_witness :
    (sendIndex 7 [] none [info1, infoFull]).err = none ∧
    (sendIndex 7 [] none [info1, infoFull]).index =
      removeAll ([info1, infoFull].map (fanStep 7 []))
        ([info1, infoFull].filter (pubFails 7 [])) ∧
    (sendIndex 7 [] none [info1, infoFull]).evicted =
      ([info1, infoFull].filter (pubFails 7 [])).map (stopInfo .terminated) ∧
    ((∃ s2, info1.sub.publish (fanMsg 7 [] info1) = .ok s2 ∧
        (fanStep 7 [] info1).sub.queue = info1.sub.queue ++ [fanMsg 7 [] info1]) ∨
      (isErrE (info1.sub.publish (fanMsg 7 [] info1)) = true ∧
        pubFails 7 [] info1 = true)) ∧
    (stopInfo .terminated infoFull).sub.terminal =
      some (infoFull.sub.terminal.getD .terminated) := by
  have h := fanout_evicts_slow 7 [] none [info1, infoFull]
    (fun f hf => nomatch hf) (by decide)
  exact ⟨h.1, h.2.1, h.2.2.1, h.2.2.2.1 info1 (by simp) rfl,
    h.2.2.2.2 infoFull (List.mem_filter.mpr ⟨by simp, rfl⟩)⟩

/-- C5 counterexample: the claim "no other outcome occurs" is false on the
code. Once the shutdown monitor has executed `close(s.queue)` (`pubsub.go`
line 378), a later `publish` enters the `select` at lines 353-363 with the
send case selectable on the closed channel; Go may choose it and panic. At
the concrete post-shutdown configuration (stopped, not canceled, queue
closed) the panic outcome is derivable, and it satisfies none of the three
claimed outcomes instantiated there. -/
theorem publish_panic_cex :
    PublishStep true false false true ⟨1, []⟩ [] .panicked [] ∧
    ¬((PubResult.panicked = .enqueued ∧ ([] : List Item) = [] ++ [⟨1, []⟩]) ∨
      (PubResult.panicked = .stopped ∧ true = true ∧ ([] : List Item) = []) ∨
      (PubResult.panicked = .ctxErr ∧ false = true ∧ ([] : List Item) = [])) :=
  ⟨.panicked rfl, by decide⟩

/-- C5 (amended): every outcome admitted by the `select` of `publish` (hence
of `Publish` and `PublishWithEvents`, which only build the item) is one of:
the item is appended to the publish channel and the call returns nil; the
call returns `ErrServerStopped`, and then the server is stopped; the call
returns `ctx.Err()`, and then the context was canceled; or the call panics,
and then the publish channel had already been closed at shutdown (Go's
select chose the send on the closed channel). On the error and panic
outcomes the queue is unchanged — no item is enqueued. -/
theorem publish_outcomes (stopped canceled canSend closed : Bool) (it : Item)
    (q : List Item) (r : PubResult) (q2 : List Item)
    (h : PublishStep stopped canceled canSend closed it q r q2) :
    (r = .enqueued ∧ q2 = q ++ [it]) ∨
    (r = .stopped ∧ stopped = true ∧ q2 = q) ∨
    (r = .ctxErr ∧ canceled = true ∧ q2 = q) ∨
    (r = .panicked ∧ closed = true ∧ q2 = q) := by
  cases h with
  | isStopped h => exact Or.inr (Or.inl ⟨rfl, h, rfl⟩)
  | isCanceled h => exact Or.inr (Or.inr (Or.inl ⟨rfl, h, rfl⟩))
  | enqueue h => exact Or.inl ⟨rfl, rfl⟩
  | panicked h => exact Or.inr (Or.inr (Or.inr ⟨rfl, h, rfl⟩))

/-- Witness for the amended C5 at a concrete input: a running server
accepting one item. -/
theorem publish_outcomes_witness :
    (PubResult.enqueued = .enqueued ∧
      ([] : List Item) ++ [⟨1, []⟩] = [] ++ [⟨1, []⟩]) ∨
    (PubResult.enqueued = .stopped ∧ false = true ∧
      ([] : List Item) ++ [⟨1, []⟩] = []) ∨
    (PubResult.enqueued = .ctxErr ∧ false = true ∧
      ([] : List Item) ++ [⟨1, []⟩] = []) ∨
    (PubResult.enqueued = .panicked ∧ false = true ∧
      ([] : List Item) ++ [⟨1, []⟩] = []) :=
  publish_outcomes false false true false ⟨1, []⟩ [] .enqueued ([] ++ [⟨1, []⟩])
    (.enqueue rfl)

/-- C4 counterexample: the conjunct "thereafter Publish returns
`ErrServerStopped`" is false on the code. After the shutdown monitor closes
the publish channel (`pubsub.go` line 378), the send case of the `select`
at lines 353-363 is selectable on the closed channel and panics when
chosen: in the post-shutdown configuration an outcome other than
`ErrServerStopped` is derivable, so the deterministic guarantee fails. -/
theorem shutdown_publish_panic_cex :
    PublishStep true false false true ⟨2, []⟩ [] .panicked [] ∧
    ¬(∀ (r : PubResult) (q2 : List Item),
        PublishStep true false false true ⟨2, []⟩ [] r q2 →
        r = .stopped ∧ q2 = []) :=
  ⟨.panicked rfl,
    fun hall => absurd (hall .panicked [] (.panicked rfl)).1 (by decide)⟩

/-- C4 (amended): when the publish channel closes at shutdown, the sender
stops every subscription remaining in the index with `ErrTerminated` and
installs the stopped sentinel (`index = none`). Thereafter
`SubscribeWithArgs` (on a non-nil query) and `Unsubscribe` (on valid
arguments) return `ErrServerStopped`, and `publish` — entered with `s.done`
closed, the context live, and the queue closed so that a send can no longer
complete successfully — either returns `ErrServerStopped` or panics (Go's
select may choose the send on the now-closed channel); both outcomes are
admitted, no other outcome is, and in no case is an item enqueued. -/
theorem shutdown_behavior (st : ServerState) (idx : List SubInfo)
    (hidx : st.index = some idx) :
    (shutdownSender st).1.index = none ∧
    (shutdownSender st).2 = idx.map (stopInfo .terminated) ∧
    (∀ si ∈ (shutdownSender st).2, si.sub.terminal.isSome = true) ∧
    (∀ (args : SubscribeArgs) q, args.query = some q →
      SubscribeWithArgs (shutdownSender st).1 args = .error .serverStopped) ∧
    (∀ a : UnsubscribeArgs, a.Validate = none →
      Unsubscribe (shutdownSender st).1 a = .error .serverStopped) ∧
    (∀ (it : Item) (q : List Item),
      PublishStep true false false true it q .stopped q ∧
      PublishStep true false false true it q .panicked q) ∧
    (∀ (it : Item) (q : List Item) (r : PubResult) (q2 : List Item),
      PublishStep true false false true it q r q2 →
      (r = .stopped ∨ r = .panicked) ∧ q2 = q) := by
  have hdown : shutdownSender st = ({ st with index := none },
      idx.map (stopInfo .terminated)) := by
    rw [shutdownSender, hidx]
  refine ⟨by rw [hdown], by rw [hdown], ?_, ?_, ?_, ?_, ?_⟩
  · rw [hdown]
    intro si hsi
    obtain ⟨si0, _, hsi0⟩ := List.mem_map.mp hsi
    rw [← hsi0]
    simp only [stopInfo, Subscription.stop]
    cases hterm : si0.sub.terminal with
    | none => simp [hterm]
    | some e2 => simp [hterm]
  · intro args q hq
    rw [hdown, SubscribeWithArgs, hq]
  · intro a hval
    rw [hdown, Unsubscribe, hval]
  · intro it q
    exact ⟨.isStopped rfl, .panicked rfl⟩
  · intro it q r q2 h
    cases h with
    | isStopped h2 => exact ⟨Or.inl rfl, rfl⟩
    | isCanceled h2 => cases h2
    | enqueue h2 => cases h2
    | panicked h2 => exact ⟨Or.inr rfl, rfl⟩

/-- Witness for the amended C4 at a concrete input: one live subscription at
shutdown. -/
theorem shutdown_behavior_witness :
    (shutdownSender (ServerState.mk (some [info1]) none 2)).1.index = none ∧
    (shutdownSender (ServerState.mk (some [info1]) none 2)).2 =
      [info1].map (stopInfo .terminated) ∧
    SubscribeWithArgs (shutdownSender (ServerState.mk (some [info1]) none 2)).1
      ⟨"a", some allQ, 0, 0⟩ = .error .serverStopped ∧
    Unsubscribe (shutdownSender (ServerState.mk (some [info1]) none 2)).1
      ⟨"a", "x", none⟩ = .error .serverStopped ∧
    ((PubResult.stopped = .stopped ∨ PubResult.stopped = .panicked) ∧
      ([] : List Item) = []) := by
  have h := shutdown_behavior (ServerState.mk (some [info1]) none 2) [info1] rfl
  exact ⟨h.1, h.2.1, h.2.2.2.1 ⟨"a", some allQ, 0, 0⟩ allQ rfl,
    h.2.2.2.2.1 ⟨"a", "x", none⟩ rfl,
    h.2.2.2.2.2.2 ⟨1, []⟩ [] .stopped [] (.isStopped rfl)⟩

/-- C6 counterexample: the claim "returns an error exactly when the query is
nil, the server is stopped, or a live subscription with the same pair
exists" is false on the code: with a non-nil query, a running fresh server,
and no existing subscription, `Limit = -1` still makes `SubscribeWithArgs`
fail, because the capacity arguments are invalid (`pubsub.go` line 229). -/
theorem subscribe_error_cases_cex :
    ((⟨"a", some allQ, -1, 0⟩ : SubscribeArgs).query.isSome = true) ∧
    ServerState.initial.index.isSome = true ∧
    containsPair [] "a" allQ.str = false ∧
    SubscribeWithArgs ServerState.initial ⟨"a", some allQ, -1, 0⟩ =
      .error .invalidCapacity :=
  ⟨rfl, rfl, rfl, rfl⟩

/-- C6 (amended): `SubscribeWithArgs` returns an error exactly when the
query is nil (`queryNil`), the server is stopped (`ErrServerStopped`), a
live subscription with the same `(clientID, query.String())` exists
(`ErrAlreadySubscribed`), or the capacity arguments are invalid
(`newSubscription` rejects them); otherwise it normalizes `Limit = 0` to
`1`, registers a new subscription at the end of the index, and returns it. -/
theorem subscribe_characterization :
    (∀ (st : ServerState) (args : SubscribeArgs), args.query = none →
      SubscribeWithArgs st args = .error .queryNil) ∧
    (∀ (st : ServerState) (args : SubscribeArgs) (q : Query),
      args.query = some q → st.index = none →
      SubscribeWithArgs st args = .error .serverStopped) ∧
    (∀ (st : ServerState) (args : SubscribeArgs) (q : Query)
        (idx : List SubInfo), args.query = some q → st.index = some idx →
      containsPair idx args.clientID q.str = true →
      SubscribeWithArgs st args = .error .alreadySubscribed) ∧
    (∀ (st : ServerState) (args : SubscribeArgs) (q : Query)
        (idx : List SubInfo), args.query = some q → st.index = some idx →
      containsPair idx args.clientID q.str = false →
      capacityOk args.quota (if args.limit = 0 then 1 else args.limit) = false →
      SubscribeWithArgs st args = .error .invalidCapacity) ∧
    (∀ (st : ServerState) (args : SubscribeArgs) (q : Query)
        (idx : List SubInfo), args.query = some q → st.index = some idx →
      containsPair idx args.clientID q.str = false →
      capacityOk args.quota (if args.limit = 0 then 1 else args.limit) = true →
      ∃ sub st2, SubscribeWithArgs st args = .ok (sub, st2) ∧
        sub.id = st.nextSubID ∧
        sub.queue = [] ∧
        sub.limit = (if args.limit = 0 then 1 else args.limit) ∧
        sub.quota = (if args.quota = 0 then
          (if args.limit = 0 then 1 else args.limit) else args.quota) ∧
        sub.terminal = none ∧
        st2.index = some (idx ++ [{ clientID := args.clientID, query := q,
                                    subID := sub.id, sub := sub }]) ∧
        st2.observe = st.observe ∧
        st2.nextSubID = st.nextSubID + 1) := by
  refine ⟨?_, ?_, ?_, ?_, ?_⟩
  · intro st args hq
    rw [SubscribeWithArgs, hq]
  · intro st args q hq hidx
    rw [SubscribeWithArgs, hq, hidx]
  · intro st args q idx hq hidx hc
    rw [SubscribeWithArgs, hq, hidx]
    simp [hc]
  · intro st args q idx hq hidx hc hcap
    rw [SubscribeWithArgs, hq, hidx]
    rw [capacityOk, decide_eq_false_iff_not] at hcap
    simp only [hc, Bool.false_eq_true, if_false]
    rw [newSubscription]
    simp only [if_neg hcap]
  · intro st args q idx hq hidx hc hcap
    rw [capacityOk, decide_eq_true_eq] at hcap
    have hEq : SubscribeWithArgs st args = .ok
        ({ id := st.nextSubID, queue := [],
           quota := if args.quota = 0 then
                      (if args.limit = 0 then 1 else args.limit)
                    else args.quota,
           limit := if args.limit = 0 then 1 else args.limit,
           terminal := none },
         { st with
           index := some (idx ++
             [{ clientID := args.clientID, query := q, subID := st.nextSubID,
                sub := { id := st.nextSubID, queue := [],
                         quota := if args.quota = 0 then
                                    (if args.limit = 0 then 1 else args.limit)
                                  else args.quota,
                         limit := if args.limit = 0 then 1 else args.limit,
                         terminal := none } }])
           nextSubID := st.nextSubID + 1 }) := by
      rw [SubscribeWithArgs, hq, hidx]
      simp only [hc, Bool.false_eq_true, if_false]
      rw [newSubscription]
      simp only [if_pos hcap]
    exact ⟨_, _, hEq, rfl, rfl, rfl, rfl, rfl, rfl, rfl, rfl⟩

/-- Witness for the amended C6 at a concrete input: registering the first
subscription on a fresh server. -/
theorem subscribe_characterization_witness :
    ∃ sub st2,
      SubscribeWithArgs ServerState.initial ⟨"a", some allQ, 0, 0⟩ =
        .ok (sub, st2) ∧
      sub.id = ServerState.initial.nextSubID ∧
      sub.queue = [] ∧
      sub.limit = (if (0 : Int) = 0 then 1 else 0) ∧
      sub.quota = (if (0 : Int) = 0 then (if (0 : Int) = 0 then 1 else 0)
        else 0) ∧
      sub.terminal = none ∧
      st2.index = some ([] ++ [{ clientID := "a", query := allQ,
                                 subID := sub.id, sub := sub }]) ∧
      st2.observe = ServerState.initial.observe ∧
      st2.nextSubID = ServerState.initial.nextSubID + 1 :=
  subscribe_characterization.2.2.2.2 ServerState.initial ⟨"a", some allQ, 0, 0⟩
    allQ [] rfl rfl rfl (by decide)

/-- C7: `Unsubscribe` rejects a request with an empty `Subscriber` (and a
request with both `ID` empty and `Query` nil) with a validation error and no
state change; on a valid request against a running server it evicts the
subscriber's subscriptions — restricted to the given query string when a
query is supplied — stopping each with `ErrUnsubscribed`, and it returns
`ErrSubscriptionNotFound` exactly when that eviction set is empty. -/
theorem unsubscribe_characterization :
    (∀ (st : ServerState) (a : UnsubscribeArgs), a.subscriber = "" →
      Unsubscribe st a = .error .mustSpecifySubscriber) ∧
    (∀ (st : ServerState) (a : UnsubscribeArgs), a.subscriber ≠ "" →
      a.id = "" → a.query.isNone = true →
      Unsubscribe st a = .error .notFullyDefined) ∧
    (∀ (st : ServerState) (a : UnsubscribeArgs) (idx : List SubInfo),
      a.Validate = none → st.index = some idx →
      (idx.filter (unsubTarget a) = [] →
        Unsubscribe st a = .error .subscriptionNotFound) ∧
      (idx.filter (unsubTarget a) ≠ [] →
        Unsubscribe st a = .ok
          ({ st with
             index := some (removeAll idx (idx.filter (unsubTarget a))) },
           (idx.filter (unsubTarget a)).map (stopInfo .unsubscribed)))) ∧
    (∀ si : SubInfo, (stopInfo .unsubscribed si).sub.terminal =
      some (si.sub.terminal.getD .unsubscribed)) := by
  refine ⟨?_, ?_, ?_, ?_⟩
  · intro st a h
    have hv : a.Validate = some .mustSpecifySubscriber := by
      rw [UnsubscribeArgs.Validate, if_pos h]
    rw [Unsubscribe, hv]
  · intro st a h1 h2 h3
    have hv : a.Validate = some .notFullyDefined := by
      rw [UnsubscribeArgs.Validate, if_neg h1, if_pos ⟨h2, h3⟩]
    rw [Unsubscribe, hv]
  · intro st a idx hval hidx
    have hgoal := unsubscribe_eval st a idx hval hidx
    constructor
    · intro hemp
      rw [hgoal, hemp]
      rfl
    · intro hne
      rw [hgoal]
      cases hfe : (idx.filter (unsubTarget a)).isEmpty with
      | true => exact absurd (List.isEmpty_iff.mp hfe) hne
      | false => simp
  · intro si
    simp only [stopInfo]
    cases hterm : si.sub.terminal with
    | none => simp [Subscription.stop, hterm]
    | some e2 => simp [Subscription.stop, hterm]

/-- Witness for C7 at a concrete input: client `a` unsubscribes its match-all
subscription; client `c`'s subscription stays. -/
theorem unsubscribe_characterization_witness :
    Unsubscribe (ServerState.mk (some [info1, info3]) none 4)
      ⟨"a", "", some allQ⟩ =
      .ok ({ ServerState.mk (some [info1, info3]) none 4 with
             index := some (removeAll [info1, info3]
               ([info1, info3].filter (unsubTarget ⟨"a", "", some allQ⟩))) },
           ([info1, info3].filter (unsubTarget ⟨"a", "", some allQ⟩)).map
             (stopInfo .unsubscribed)) :=
  (unsubscribe_characterization.2.2.1 (ServerState.mk (some [info1, info3]) none 4)
    ⟨"a", "", some allQ⟩ [info1, info3] rfl rfl).2 (List.cons_ne_nil _ _)

/-- C9: `Unsubscribe` never consults the `ID` field of its arguments: two
valid requests differing only in their (non-empty) IDs produce identical
results, and a valid request with a non-empty ID and a nil query evicts
every subscription of the subscriber — not only the one carrying the given
ID. -/
theorem unsubscribe_ignores_id :
    (∀ (st : ServerState) (s i1 i2 : String) (qo : Option Query),
      s ≠ "" → i1 ≠ "" → i2 ≠ "" →
      Unsubscribe st ⟨s, i1, qo⟩ = Unsubscribe st ⟨s, i2, qo⟩) ∧
    (∀ (st : ServerState) (a : UnsubscribeArgs) (idx : List SubInfo),
      a.subscriber ≠ "" → a.id ≠ "" → a.query = none → st.index = some idx →
      (findClientID idx a.subscriber = [] →
        Unsubscribe st a = .error .subscriptionNotFound) ∧
      (findClientID idx a.subscriber ≠ [] →
        Unsubscribe st a = .ok
          ({ st with
             index := some (removeAll idx (findClientID idx a.subscriber)) },
           (findClientID idx a.subscriber).map (stopInfo .unsubscribed)))) := by
  have hvnone : ∀ (s i : String) (qo : Option Query), s ≠ "" → i ≠ "" →
      (UnsubscribeArgs.mk s i qo).Validate = none := by
    intro s i qo hs hi
    rw [UnsubscribeArgs.Validate, if_neg hs, if_neg fun h => hi h.1]
  constructor
  · intro st s i1 i2 qo hs h1 h2
    cases hidx : st.index with
    | none =>
      rw [Unsubscribe, hvnone s i1 qo hs h1, hidx,
        Unsubscribe, hvnone s i2 qo hs h2, hidx]
    | some idx =>
      rw [unsubscribe_eval st ⟨s, i1, qo⟩ idx (hvnone s i1 qo hs h1) hidx,
        unsubscribe_eval st ⟨s, i2, qo⟩ idx (hvnone s i2 qo hs h2) hidx]
      have hu : unsubTarget ⟨s, i1, qo⟩ = unsubTarget ⟨s, i2, qo⟩ := by
        funext si
        simp only [unsubTarget]
      rw [hu]
  · intro st a idx hs hi hq hidx
    have hval : a.Validate = none := by
      rw [UnsubscribeArgs.Validate, if_neg hs, if_neg fun h => hi h.1]
    have hfc : idx.filter (unsubTarget a) = findClientID idx a.subscriber := by
      have hfun : unsubTarget a = fun si => si.clientID == a.subscriber := by
        funext si
        simp only [unsubTarget, hq]
      rw [hfun, findClientID]
    have hgoal := unsubscribe_eval st a idx hval hidx
    rw [hfc] at hgoal
    constructor
    · intro hemp
      rw [hgoal, hemp]
      rfl
    · intro hne
      rw [hgoal]
      cases hfe : (findClientID idx a.subscriber).isEmpty with
      | true => exact absurd (List.isEmpty_iff.mp hfe) hne
      | false => simp

/-- Witness for C9 at a concrete input: a request carrying subscription ID
`zz` and no query evicts both of the subscriber's subscriptions. -/
theorem unsubscribe_ignores_id_witness :
    Unsubscribe (ServerState.mk (some [info1, infoA2]) none 6)
      ⟨"a", "zz", none⟩ =
      .ok ({ ServerState.mk (some [info1, infoA2]) none 6 with
             index := some (removeAll [info1, infoA2]
               (findClientID [info1, infoA2] "a")) },
           (findClientID [info1, infoA2] "a").map (stopInfo .unsubscribed)) :=
  (unsubscribe_ignores_id.2 (ServerState.mk (some [info1, infoA2]) none 6)
    ⟨"a", "zz", none⟩ [info1, infoA2] (by decide) (by decide)
    rfl rfl).2 (List.cons_ne_nil _ _)

/-- C8: at every reachable server state, no two live subscriptions in the
index share the same `(clientID, query.String())` pair; every operation —
subscribe (guarded by `contains`), unsubscribe of a pair or of a whole
client, observer registration, a sender delivery with its evictions, and
shutdown — preserves the invariant. -/
theorem uniqueness_invariant (st : ServerState) (h : Reachable st) :
    InvUniq st := by
  induction h with
  | init =>
    intro idx hidx
    simp only [ServerState.initial] at hidx
    cases hidx
    exact List.nodup_nil
  | @subscribe st args sub st2 hr hok ih =>
    obtain ⟨q, idx, hq, hidx, hc, hidx2⟩ := subscribe_ok_inv hok
    intro idx2 h2
    rw [hidx2] at h2
    cases h2
    rw [List.map_append]
    refine List.Nodup.append (ih idx hidx) (List.nodup_singleton _) ?_
    intro k hk1 hk2
    obtain ⟨si, hsi, hksi⟩ := List.mem_map.mp hk1
    have hkeq : k =
        ({ clientID := args.clientID, query := q, subID := sub.id,
           sub := sub } : SubInfo).key := by
      simpa using hk2
    rw [containsPair] at hc
    have hsi2 := List.any_eq_false.mp hc si hsi
    apply hsi2
    rw [Bool.and_eq_true, beq_iff_eq, beq_iff_eq]
    have hkey : si.key = (args.clientID, q.str) := by
      rw [hksi, hkeq]
      rfl
    rw [SubInfo.key, Prod.mk.injEq] at hkey
    exact ⟨hkey.1, hkey.2⟩
  | @unsub st args st2 ev hr hok ih =>
    obtain ⟨idx, evict, hidx, hidx2⟩ := unsub_ok_inv hok
    intro idx2 h2
    rw [hidx2] at h2
    cases h2
    exact (ih idx hidx).sublist (removeAll_keys_sublist idx evict)
  | @unsubAll st cid st2 ev hr hok ih =>
    obtain ⟨idx, evict, hidx, hidx2⟩ := unsubAll_ok_inv hok
    intro idx2 h2
    rw [hidx2] at h2
    cases h2
    exact (ih idx hidx).sublist (removeAll_keys_sublist idx evict)
  | @observeReg st st2 f queries hr hok ih =>
    intro idx h2
    rw [observe_ok_inv hok] at h2
    exact ih idx h2
  | @sendItem st it st2 ev err hr hsend ih =>
    intro idx2 h2
    cases hidx : st.index with
    | none =>
      rw [sendState, hidx] at hsend
      injection hsend with h1 hrest
      rw [← h1, hidx] at h2
      cases h2
    | some idx =>
      rw [sendState, hidx] at hsend
      injection hsend with h1 hrest
      rw [← h1] at h2
      simp only at h2
      cases h2
      exact (ih idx hidx).sublist (sendIndex_keys it.data it.events st.observe idx)
  | @shutdown st hr ih =>
    intro idx h2
    cases hidx : st.index with
    | none => simp [shutdownSender, hidx] at h2
    | some idx0 => simp [shutdownSender, hidx] at h2

/-- Witness for C8: the invariant, instantiated at the concrete reachable
state obtained by registering one subscription on a fresh server. -/
theorem uniqueness_invariant_witness :
    (([info1] : List SubInfo).map SubInfo.key).Nodup :=
  uniqueness_invariant (ServerState.mk (some [info1]) none 2)
    (@Reachable.subscribe ServerState.initial ⟨"a", some allQ, 0, 0⟩ sub1
      (ServerState.mk (some [info1]) none 2) Reachable.init rfl) [info1] rfl

/-- C10: unlike `Unsubscribe` and `SubscribeWithArgs`, which return
`ErrServerStopped` once the sender has installed the nil index at shutdown,
`UnsubscribeAll` and `NumClients` have no stopped-state guard: on the stopped
server they access the nil index (modelled as the `none` outcome — a nil
pointer dereference in Go) instead of returning `ErrServerStopped`. -/
theorem stopped_guard_missing (st : ServerState) (c : String)
    (a : UnsubscribeArgs) (args : SubscribeArgs) (q : Query)
    (hstop : st.index = none) (hval : a.Validate = none) (hq : args.query = some q) :
    UnsubscribeAllOp st c = none ∧
    NumClients st = none ∧
    Unsubscribe st a = .error .serverStopped ∧
    SubscribeWithArgs st args = .error .serverStopped := by
  refine ⟨?_, ?_, ?_, ?_⟩
  · rw [UnsubscribeAllOp, hstop]
  · rw [NumClients, hstop]
  · rw [Unsubscribe, hval, hstop]
  · rw [SubscribeWithArgs, hq, hstop]

/-- Witness for C10 at a concrete input: the stopped server, a valid
unsubscribe request, a well-formed subscribe request. -/
theorem stopped_guard_missing_witness :
    UnsubscribeAllOp stStopped "a" = none ∧
    NumClients stStopped = none ∧
    Unsubscribe stStopped ⟨"a", "x", none⟩ = .error .serverStopped ∧
    SubscribeWithArgs stStopped ⟨"a", some allQ, 0, 0⟩ = .error .serverStopped :=
  stopped_guard_missing stStopped "a" ⟨"a", "x", none⟩ ⟨"a", some allQ, 0, 0⟩
    allQ rfl rfl rfl

end Pubsub
